import Mathlib

/-!
SafeReach tracking core: a shallow embedding of src/frontend/app.js.

The embedding covers the continuous location-tracking and geofence-arrival
engine: Utils.calculateDistance (haversine), the LocationService strategy
orchestration (background service, Capacitor foreground watch, browser watch,
15 second periodic poll), wake-lock acquisition and release, and the
TrackingService session state machine (startTracking, the per-fix tracking
callback, handleArrival, cancelTrip, resetApp).

Modelling conventions:
- The mutable module state (AppState object plus the module-level wakeLock
  variable) is the AppState structure; DOM and map fields are omitted, and
  the currentStep string stands for StepManager.showStep.
- Platform facts that the code only queries (plugin availability, whether a
  platform call throws) are the Env structure, fixed for a run.
- Handles registered with the platform (watch subscriptions, background
  watchers, interval timers) live in the Platform structure as lists of ids,
  so that leaked registrations stay observable even after the state field
  holding the handle is overwritten.
- Every acquisition source (browser watchPosition callback, Capacitor
  watchPosition callback, background watcher callback, poll tick) runs the
  same body: set currentLocation, increment updateCount, invoke the stored
  tracking callback. TrackingService.deliverFix models one such delivery,
  composed with the tracking callback registered by
  TrackingService.startTracking (app.js lines 988-1010).
- The tracking callback computes dist with Utils.calculateDistance; the
  session layer takes this computed value as the dist field of FixEvent so
  the state machine stays executable, and the distance function itself is
  verified separately over the reals.
- Number-valued JS data is embedded as rationals in the state machine and as
  reals in the distance function.
-/

/-- One normalized position fix, as built in the JS callbacks
(lat, lng, accuracy). -/
structure GeoFix where
  lat : ℚ
  lng : ℚ
  accuracy : ℚ
deriving DecidableEq

/-- The destination object (name, lat, lng) stored in AppState.destination. -/
structure Destination where
  name : String
  lat : ℚ
  lng : ℚ
deriving DecidableEq

/-- The mutable application state of app.js (lines 34-58) restricted to the
tracking core, plus the module-level wakeLock variable (line 512). -/
structure AppState where
  currentStep : String
  currentLocation : Option GeoFix
  destination : Option Destination
  selectedContacts : List String
  tracking : Bool
  arrived : Bool
  geofenceRadius : ℚ
  distance : Option ℚ
  updateCount : Nat
  watchId : Option Nat
  lastTrackingCallback : Bool
  pollIntervalId : Option Nat
  backgroundWatcherId : Option Nat
  backgroundTrackingActive : Bool
  wakeLock : Bool
deriving DecidableEq

/-- Facts about the platform that the code queries, fixed for a run:
plugin availability and whether the individual platform calls throw. -/
structure Env where
  isCapacitor : Bool
  capGeoAvailable : Bool
  bgGeoAvailable : Bool
  browserGeoAvailable : Bool
  bgSetupFails : Bool
  watchPositionFails : Bool
  clearWatchFails : Bool
  removeWatcherFails : Bool
  wakeLockGranted : Bool
deriving DecidableEq

/-- Platform-side registrations: the ids of currently live watch
subscriptions, background watchers and interval timers. A registration made
by the code stays in the list until the code clears it, even if the AppState
field that held the id is overwritten. -/
structure Platform where
  browserWatches : List Nat
  capWatches : List Nat
  bgWatchers : List Nat
  pollTimers : List Nat
  nextId : Nat
deriving DecidableEq

/-- Removing one platform registration by id. -/
def removeId (l : List Nat) (i : Nat) : List Nat := l.filter (fun j => j ≠ i)

/-- Event of one fix being delivered by any acquisition source. dist is the
value Utils.calculateDistance returns for this fix and the destination
(app.js lines 996-999); sendOk is whether the arrival-notification fetch in
handleArrival would succeed at this point. -/
structure FixEvent where
  loc : GeoFix
  dist : ℚ
  sendOk : Bool
deriving DecidableEq

/-- Observable effects of delivering one fix. -/
structure FixEffects where
  callbackInvoked : Bool
  uiThrew : Bool
  serverSent : Bool
  arrivalWork : Bool
  warningShown : Bool
deriving DecidableEq

/-- Observable effects of TrackingService.handleArrival. -/
structure ArrivalEffects where
  performedWork : Bool
  warn : Bool
deriving DecidableEq

/-- Observable effects of LocationService.startTracking. -/
structure StartLSEffects where
  bgStarted : Bool
  fgWatchStarted : Bool
  pollStarted : Bool
  errorShown : Bool
deriving DecidableEq

/-- Observable effects of TrackingService.startTracking. -/
structure StartTSEffects where
  validationError : Bool
  started : Bool
deriving DecidableEq

namespace Utils

/-- app.js lines 62-71: Utils.calculateDistance, the haversine formula with
Earth radius 6371000 m, embedded over the reals. -/
noncomputable def calculateDistance (lat1 lng1 lat2 lng2 : ℝ) : ℝ :=
  let R : ℝ := 6371000
  let dLat := (lat2 - lat1) * Real.pi / 180
  let dLng := (lng2 - lng1) * Real.pi / 180
  let a := Real.sin (dLat / 2) * Real.sin (dLat / 2) +
    Real.cos (lat1 * Real.pi / 180) * Real.cos (lat2 * Real.pi / 180) *
    Real.sin (dLng / 2) * Real.sin (dLng / 2)
  let c := 2 * Real.arcsin (Real.sqrt a)
  R * c

end Utils

/-- app.js lines 525-533: releaseWakeLock. The returned Bool records whether
the underlying platform release call was made. The JS body catches every
rejection and clears the variable in a finally block, so no exception can
escape. -/
def releaseWakeLock (s : AppState) : AppState × Bool :=
  if s.wakeLock then ({ s with wakeLock := false }, true) else (s, false)

/-- app.js lines 513-523: requestWakeLock, best effort; on success the
module-level wakeLock variable is overwritten with the new sentinel. -/
def requestWakeLock (env : Env) (s : AppState) : AppState :=
  if env.wakeLockGranted then { s with wakeLock := true } else s

namespace LocationService

/-- app.js lines 447-450: clear the periodic poll interval if set. -/
def stopPoll (s : AppState) (p : Platform) : AppState × Platform :=
  match s.pollIntervalId with
  | some t => ({ s with pollIntervalId := none },
      { p with pollTimers := removeId p.pollTimers t })
  | none => (s, p)

/-- app.js lines 453-461: clear the Capacitor watch if running; an exception
from clearWatch is caught and leaves the subscription registered. -/
def stopCapWatch (env : Env) (s : AppState) (p : Platform) : Platform :=
  match s.watchId with
  | some w =>
    if env.isCapacitor && env.capGeoAvailable && !env.clearWatchFails then
      { p with capWatches := removeId p.capWatches w }
    else p
  | none => p

/-- app.js lines 464-478: remove the background watcher. The flags are reset
inside the try block after the awaited removeWatcher call, so when
removeWatcher throws the catch only logs and the flags keep their values. -/
def stopBg (env : Env) (s : AppState) (p : Platform) : AppState × Platform :=
  if env.bgGeoAvailable && s.backgroundTrackingActive then
    match s.backgroundWatcherId with
    | some b =>
      if env.removeWatcherFails then (s, p)
      else ({ s with backgroundTrackingActive := false, backgroundWatcherId := none },
        { p with bgWatchers := removeId p.bgWatchers b })
    | none => ({ s with backgroundTrackingActive := false, backgroundWatcherId := none }, p)
  else (s, p)

/-- app.js lines 481-483: clear the browser watch when navigator.geolocation
exists and watchId is non-null. -/
def stopBrowserWatch (env : Env) (s : AppState) (p : Platform) : Platform :=
  match s.watchId with
  | some w =>
    if env.browserGeoAvailable then
      { p with browserWatches := removeId p.browserWatches w }
    else p
  | none => p

/-- app.js lines 443-486: LocationService.stopTracking, in source order:
poll interval, Capacitor watch, background watcher, browser watch, then
watchId is set to null unconditionally. -/
def stopTracking (env : Env) (s : AppState) (p : Platform) : AppState × Platform :=
  let x1 := stopPoll s p
  let p2 := stopCapWatch env x1.1 x1.2
  let x3 := stopBg env x1.1 p2
  let p4 := stopBrowserWatch env x3.1 x3.2
  ({ x3.1 with watchId := none }, p4)

/-- app.js lines 333-349: the periodic-poll setup at the end of
startCapacitorTracking. A previously stored interval is cleared first, then
a fresh 15 second interval is registered and stored. -/
def pollSetup (s : AppState) (p : Platform) : AppState × Platform :=
  let p1 := match s.pollIntervalId with
    | some t => { p with pollTimers := removeId p.pollTimers t }
    | none => p
  ({ s with pollIntervalId := some p1.nextId },
   { p1 with pollTimers := p1.pollTimers ++ [p1.nextId], nextId := p1.nextId + 1 })

/-- app.js lines 354-441: setupBackgroundTracking. Returns the new watcher id
on success; throwing (plugin missing or addWatcher rejecting) is none. On
success the watcher is registered with the platform and the flags are set;
a previously registered watcher is not removed. -/
def setupBackgroundTracking (env : Env) (s : AppState) (p : Platform) :
    Option (AppState × Platform × Nat) :=
  if env.bgGeoAvailable && !env.bgSetupFails then
    some ({ s with backgroundWatcherId := some p.nextId, backgroundTrackingActive := true },
      { p with bgWatchers := p.bgWatchers ++ [p.nextId], nextId := p.nextId + 1 },
      p.nextId)
  else none

/-- app.js lines 261-352: startCapacitorTracking. Background tracking is
tried first; on failure the Capacitor foreground watch is started (the old
watchId, if any, is overwritten without being cleared); if watchPosition
throws the function returns null early, so neither the callback is stored
nor the poll started. Otherwise the callback is stored and the 15 second
poll is layered on top. -/
def startCapacitorTracking (env : Env) (s : AppState) (p : Platform) :
    AppState × Platform × StartLSEffects :=
  if !env.capGeoAvailable then
    (s, p, ⟨false, false, false, true⟩)
  else
    match setupBackgroundTracking env s p with
    | some (s1, p1, _) =>
      let s2 := { s1 with lastTrackingCallback := true }
      let r := pollSetup s2 p1
      (r.1, r.2, ⟨true, false, true, false⟩)
    | none =>
      if env.watchPositionFails then
        (s, p, ⟨false, false, false, true⟩)
      else
        let s1 := { s with watchId := some p.nextId, lastTrackingCallback := true }
        let p1 := { p with capWatches := p.capWatches ++ [p.nextId], nextId := p.nextId + 1 }
        let r := pollSetup s1 p1
        (r.1, r.2, ⟨false, true, true, false⟩)

/-- app.js lines 221-259: LocationService.startTracking. Dispatches to the
Capacitor path when native and the Geolocation plugin exists; otherwise the
browser watchPosition path, which registers a watch and stores the callback
but starts no poll timer. -/
def startTracking (env : Env) (s : AppState) (p : Platform) :
    AppState × Platform × StartLSEffects :=
  if env.isCapacitor && env.capGeoAvailable then
    startCapacitorTracking env s p
  else if !env.browserGeoAvailable then
    (s, p, ⟨false, false, false, true⟩)
  else
    ({ s with watchId := some p.nextId, lastTrackingCallback := true },
     { p with browserWatches := p.browserWatches ++ [p.nextId], nextId := p.nextId + 1 },
     ⟨false, true, false, false⟩)

end LocationService

namespace TrackingService

/-- app.js lines 1039-1075: TrackingService.handleArrival. If arrived is
already set the call returns at once. Otherwise arrived and tracking are set
synchronously, all tracking is stopped and the wake lock released, and only
then the notification send runs; whether it succeeds or not, the complete
step is shown and the state machine is not unwound (a failure only adds a
warning). -/
def handleArrival (env : Env) (s : AppState) (p : Platform) (sendOk : Bool) :
    AppState × Platform × ArrivalEffects :=
  if s.arrived then (s, p, ⟨false, false⟩)
  else
    let s1 := { s with arrived := true, tracking := false }
    let x := LocationService.stopTracking env s1 p
    let s2 := (releaseWakeLock x.1).1
    if sendOk then ({ s2 with currentStep := "complete" }, x.2, ⟨true, false⟩)
    else ({ s2 with currentStep := "complete" }, x.2, ⟨true, true⟩)

/-- One fix delivery from any acquisition source. First the shared callback
body (app.js lines 234-244, 269-280, 415-426): currentLocation is set and
updateCount incremented unconditionally, then the stored tracking callback
is invoked if registered. The tracking callback (lines 988-1010) updates the
UI (throwing on a null destination at line 1027), sends the fix to the
server, stores the computed distance and runs the arrival check
dist <= geofenceRadius combined with the arrived flag. -/
def deliverFix (env : Env) (s : AppState) (p : Platform) (e : FixEvent) :
    AppState × Platform × FixEffects :=
  let s1 := { s with currentLocation := some e.loc, updateCount := s.updateCount + 1 }
  if s1.lastTrackingCallback then
    match s1.destination with
    | none =>
      (s1, p, ⟨true, true, false, false, false⟩)
    | some _ =>
      let s2 := { s1 with distance := some e.dist }
      if e.dist ≤ s2.geofenceRadius ∧ s2.arrived = false then
        let r := handleArrival env s2 p e.sendOk
        (r.1, r.2.1, ⟨true, false, true, r.2.2.performedWork, r.2.2.warn⟩)
      else
        (s2, p, ⟨true, false, true, false, false⟩)
  else (s1, p, ⟨false, false, false, false, false⟩)

/-- deliverFix restricted to its state component. -/
def deliverStep (env : Env) (x : AppState × Platform) (e : FixEvent) :
    AppState × Platform :=
  let r := deliverFix env x.1 x.2 e
  (r.1, r.2.1)

/-- How many of the fixes in the list cause the arrival handler to perform
its work, processing them in order. -/
def countArrivals (env : Env) (x : AppState × Platform) : List FixEvent → Nat
  | [] => 0
  | e :: es =>
    (if (deliverFix env x.1 x.2 e).2.2.arrivalWork then 1 else 0) +
      countArrivals env (deliverStep env x e) es

/-- app.js lines 954-1019: TrackingService.startTracking. Validation errors
(no destination, no selected contact) return before anything changes; a
failed set-destination request lands in the catch that sets tracking false.
On success tracking is set, the tracking step shown, updateCount reset,
LocationService.startTracking invoked with the tracking callback, and the
wake lock requested best-effort. currentLocation is not touched. -/
def startTracking (env : Env) (s : AppState) (p : Platform) (serverOk : Bool) :
    AppState × Platform × StartTSEffects :=
  if s.destination.isNone then (s, p, ⟨true, false⟩)
  else if s.selectedContacts.isEmpty then (s, p, ⟨true, false⟩)
  else if !serverOk then ({ s with tracking := false }, p, ⟨false, false⟩)
  else
    let s1 := { s with tracking := true, currentStep := "tracking", updateCount := 0 }
    let r := LocationService.startTracking env s1 p
    (requestWakeLock env r.1, r.2.1, ⟨false, true⟩)

/-- app.js lines 1092-1112: TrackingService.resetApp (map handling omitted). -/
def resetApp (s : AppState) : AppState :=
  let s1 := { s with
    currentLocation := none, destination := none, tracking := false,
    arrived := false, distance := none, updateCount := 0 }
  let s2 := (releaseWakeLock s1).1
  { s2 with currentStep := "permission" }

/-- app.js lines 1077-1090: TrackingService.cancelTrip: stop tracking,
release the wake lock, reset the trip server-side (fire and forget) and
reset the app state. -/
def cancelTrip (env : Env) (s : AppState) (p : Platform) : AppState × Platform :=
  let x := LocationService.stopTracking env s p
  let s2 := (releaseWakeLock x.1).1
  (resetApp s2, x.2)

end TrackingService

/-- The list of live poll timers a state expects: the stored interval id,
if any. -/
def pollList : Option Nat → List Nat
  | some t => [t]
  | none => []

/-- The stored poll interval id and the platform-side live interval timers
agree: at most one live poll timer, and it is the stored one. -/
def PollWF (s : AppState) (p : Platform) : Prop :=
  p.pollTimers = pollList s.pollIntervalId

instance (s : AppState) (p : Platform) : Decidable (PollWF s p) := by
  unfold PollWF; infer_instance

/-- A fully populated session environment for concrete checks: native app,
all plugins available, no platform call fails. -/
def envFull : Env :=
  { isCapacitor := true, capGeoAvailable := true, bgGeoAvailable := true,
    browserGeoAvailable := true, bgSetupFails := false, watchPositionFails := false,
    clearWatchFails := false, removeWatcherFails := false, wakeLockGranted := true }

/-- A live tracking session state for concrete checks. -/
def sBase : AppState :=
  { currentStep := "tracking", currentLocation := none,
    destination := some { name := "Cafe", lat := 0, lng := 0 },
    selectedContacts := ["+911111111111"], tracking := true, arrived := false,
    geofenceRadius := 500, distance := none, updateCount := 0, watchId := none,
    lastTrackingCallback := true, pollIntervalId := none,
    backgroundWatcherId := none, backgroundTrackingActive := false, wakeLock := true }

/-- An empty platform for concrete checks. -/
def pBase : Platform :=
  { browserWatches := [], capWatches := [], bgWatchers := [], pollTimers := [],
    nextId := 0 }


/-- A native session holding every resource at once: poll timer 7, Capacitor
watch 3, background watcher 5, wake lock held. -/
def sLoaded : AppState :=
  { sBase with
    watchId := some 3, pollIntervalId := some 7,
    backgroundWatcherId := some 5, backgroundTrackingActive := true }

/-- The platform registrations matching sLoaded. -/
def pLoaded : Platform :=
  { pBase with
    capWatches := [3], pollTimers := [7], bgWatchers := [5], nextId := 8 }

/-! Helper lemmas about the embedded operations. -/

theorem releaseWakeLock_fields (s : AppState) :
    ((releaseWakeLock s).1).wakeLock = false ∧
    ((releaseWakeLock s).1).arrived = s.arrived ∧
    ((releaseWakeLock s).1).tracking = s.tracking ∧
    ((releaseWakeLock s).1).currentStep = s.currentStep := by
  cases h : s.wakeLock <;> simp [releaseWakeLock, h]

theorem stopTracking_preserves (env : Env) (s : AppState) (p : Platform) :
    ((LocationService.stopTracking env s p).1).arrived = s.arrived ∧
    ((LocationService.stopTracking env s p).1).tracking = s.tracking ∧
    ((LocationService.stopTracking env s p).1).currentStep = s.currentStep ∧
    ((LocationService.stopTracking env s p).1).wakeLock = s.wakeLock ∧
    ((LocationService.stopTracking env s p).1).lastTrackingCallback = s.lastTrackingCallback ∧
    ((LocationService.stopTracking env s p).1).destination = s.destination ∧
    ((LocationService.stopTracking env s p).1).updateCount = s.updateCount ∧
    ((LocationService.stopTracking env s p).1).currentLocation = s.currentLocation ∧
    ((LocationService.stopTracking env s p).1).geofenceRadius = s.geofenceRadius ∧
    ((LocationService.stopTracking env s p).1).distance = s.distance := by
  unfold LocationService.stopTracking LocationService.stopPoll LocationService.stopBg
  rcases s with ⟨a1, a2, a3, a4, a5, a6, a7, a8, a9, a10, a11, a12, a13, a14, a15⟩
  cases a12 <;> dsimp <;> (repeat' split) <;> simp

theorem handleArrival_state (env : Env) (s : AppState) (p : Platform) (b : Bool)
    (h : s.arrived = false) :
    (TrackingService.handleArrival env s p b).1.arrived = true ∧
    (TrackingService.handleArrival env s p b).1.tracking = false ∧
    (TrackingService.handleArrival env s p b).1.currentStep = "complete" ∧
    (TrackingService.handleArrival env s p b).1.wakeLock = false ∧
    (TrackingService.handleArrival env s p b).2.2.performedWork = true ∧
    (TrackingService.handleArrival env s p b).2.2.warn = !b := by
  have hst := stopTracking_preserves env { s with arrived := true, tracking := false } p
  have hwl := releaseWakeLock_fields
    (LocationService.stopTracking env { s with arrived := true, tracking := false } p).1
  unfold TrackingService.handleArrival
  cases b <;>
    simp_all only [Bool.false_eq_true, if_false, if_true, Bool.not_false, Bool.not_true] <;>
    simp_all

theorem handleArrival_noop (env : Env) (s : AppState) (p : Platform) (b : Bool)
    (h : s.arrived = true) :
    TrackingService.handleArrival env s p b = (s, p, ⟨false, false⟩) := by
  unfold TrackingService.handleArrival
  simp [h]

theorem deliverFix_arrival_spec (env : Env) (s : AppState) (p : Platform) (e : FixEvent) :
    ((TrackingService.deliverFix env s p e).2.2.arrivalWork = true ∧ s.arrived = false ∧
      (TrackingService.deliverFix env s p e).1.arrived = true) ∨
    ((TrackingService.deliverFix env s p e).2.2.arrivalWork = false ∧
      (TrackingService.deliverFix env s p e).1.arrived = s.arrived) := by
  unfold TrackingService.deliverFix
  cases hcb : s.lastTrackingCallback
  · right; simp [hcb]
  · cases hd : s.destination with
    | none => right; simp [hcb, hd]
    | some d =>
      by_cases hcond : e.dist ≤ s.geofenceRadius ∧ s.arrived = false
      · left
        have ha := handleArrival_state env
          { s with
            currentLocation := some e.loc, updateCount := s.updateCount + 1,
            distance := some e.dist } p e.sendOk hcond.2
        rw [hd, hcb] at ha
        simp only [hcb, hd]
        rw [if_pos hcond]
        simp only [if_true]
        exact ⟨ha.2.2.2.2.1, hcond.2, ha.1⟩
      · right
        simp only [hcb, hd]
        rw [if_neg hcond]
        simp

theorem releaseWakeLock_fst (s : AppState) :
    (releaseWakeLock s).1 = { s with wakeLock := false } := by
  rcases s with ⟨a1, a2, a3, a4, a5, a6, a7, a8, a9, a10, a11, a12, a13, a14, a15⟩
  cases a15 <;> simp [releaseWakeLock]

theorem handleArrival_preserves (env : Env) (s : AppState) (p : Platform) (b : Bool) :
    (TrackingService.handleArrival env s p b).1.updateCount = s.updateCount ∧
    (TrackingService.handleArrival env s p b).1.currentLocation = s.currentLocation := by
  cases h : s.arrived
  · have hst := stopTracking_preserves env { s with arrived := true, tracking := false } p
    have hrl := releaseWakeLock_fst
      (LocationService.stopTracking env { s with arrived := true, tracking := false } p).1
    unfold TrackingService.handleArrival
    cases b <;> simp_all
  · rw [handleArrival_noop env s p b h]
    exact ⟨rfl, rfl⟩

theorem deliverFix_applied (env : Env) (s : AppState) (p : Platform) (e : FixEvent) :
    (TrackingService.deliverFix env s p e).1.updateCount = s.updateCount + 1 ∧
    (TrackingService.deliverFix env s p e).1.currentLocation = some e.loc ∧
    (TrackingService.deliverFix env s p e).2.2.callbackInvoked = s.lastTrackingCallback := by
  unfold TrackingService.deliverFix
  cases hcb : s.lastTrackingCallback
  · simp [hcb]
  · cases hd : s.destination with
    | none => simp [hcb, hd]
    | some d =>
      by_cases hcond : e.dist ≤ s.geofenceRadius ∧ s.arrived = false
      · have hp := handleArrival_preserves env
          { s with
            currentLocation := some e.loc, updateCount := s.updateCount + 1,
            distance := some e.dist } p e.sendOk
        rw [hd, hcb] at hp
        simp only [hcb, hd]
        rw [if_pos hcond]
        simp only [if_true]
        simp_all
      · simp only [hcb, hd]
        rw [if_neg hcond]
        simp

theorem countArrivals_zero_of_arrived (env : Env) (evs : List FixEvent) :
    ∀ x : AppState × Platform, x.1.arrived = true →
      TrackingService.countArrivals env x evs = 0 := by
  induction evs with
  | nil => intro x h; rfl
  | cons e es ih =>
    intro x h
    rcases deliverFix_arrival_spec env x.1 x.2 e with ⟨_, hfalse, _⟩ | ⟨hw, hpres⟩
    · rw [h] at hfalse; cases hfalse
    · simp only [TrackingService.countArrivals, hw]
      simp only [Bool.false_eq_true, if_false, zero_add]
      apply ih
      show (TrackingService.deliverFix env x.1 x.2 e).1.arrived = true
      rw [hpres, h]

theorem countArrivals_le_one (env : Env) (evs : List FixEvent) :
    ∀ x : AppState × Platform, x.1.arrived = false →
      TrackingService.countArrivals env x evs ≤ 1 := by
  induction evs with
  | nil => intro x h; simp [TrackingService.countArrivals]
  | cons e es ih =>
    intro x h
    rcases deliverFix_arrival_spec env x.1 x.2 e with ⟨hw, _, hset⟩ | ⟨hw, hpres⟩
    · have hz := countArrivals_zero_of_arrived env es
        (TrackingService.deliverStep env x e) hset
      simp [TrackingService.countArrivals, hw, hz]
    · have hrec := ih (TrackingService.deliverStep env x e)
        (by show (TrackingService.deliverFix env x.1 x.2 e).1.arrived = false
            rw [hpres, h])
      simp only [TrackingService.countArrivals, hw]
      simpa using hrec

theorem lsStart_preserves (env : Env) (s : AppState) (p : Platform) :
    ((LocationService.startTracking env s p).1).tracking = s.tracking ∧
    ((LocationService.startTracking env s p).1).updateCount = s.updateCount ∧
    ((LocationService.startTracking env s p).1).currentLocation = s.currentLocation ∧
    ((LocationService.startTracking env s p).1).arrived = s.arrived ∧
    ((LocationService.startTracking env s p).1).currentStep = s.currentStep ∧
    ((LocationService.startTracking env s p).1).destination = s.destination ∧
    ((LocationService.startTracking env s p).1).selectedContacts = s.selectedContacts := by
  rcases env with ⟨e1, e2, e3, e4, e5, e6, e7, e8, e9⟩
  cases e1 <;> cases e2 <;> cases e3 <;> cases e4 <;> cases e5 <;> cases e6 <;>
    cases hpi : s.pollIntervalId <;>
    simp [LocationService.startTracking, LocationService.startCapacitorTracking,
      LocationService.setupBackgroundTracking, LocationService.pollSetup, hpi]

theorem requestWakeLock_preserves (env : Env) (s : AppState) :
    (requestWakeLock env s).tracking = s.tracking ∧
    (requestWakeLock env s).updateCount = s.updateCount ∧
    (requestWakeLock env s).currentLocation = s.currentLocation ∧
    (requestWakeLock env s).arrived = s.arrived := by
  cases h : env.wakeLockGranted <;> simp [requestWakeLock, h]

theorem pollList_length (o : Option Nat) : (pollList o).length ≤ 1 := by
  cases o <;> simp [pollList]

theorem pollSetup_wf (s : AppState) (p : Platform)
    (h : p.pollTimers = pollList s.pollIntervalId) :
    (LocationService.pollSetup s p).2.pollTimers =
      pollList (LocationService.pollSetup s p).1.pollIntervalId := by
  unfold LocationService.pollSetup
  cases ho : s.pollIntervalId <;> rw [ho] at h <;> simp [ho, pollList] at h ⊢ <;>
    simp [h, removeId, pollList]

theorem lsStart_pollwf (env : Env) (s : AppState) (p : Platform) (h : PollWF s p) :
    PollWF (LocationService.startTracking env s p).1
      (LocationService.startTracking env s p).2.1 := by
  unfold PollWF at h ⊢
  rcases env with ⟨e1, e2, e3, e4, e5, e6, e7, e8, e9⟩
  cases e1 <;> cases e2 <;> cases e3 <;> cases e4 <;> cases e5 <;> cases e6 <;>
    simp only [LocationService.startTracking, LocationService.startCapacitorTracking,
      LocationService.setupBackgroundTracking, Bool.and_false, Bool.and_true,
      Bool.false_and, Bool.true_and, Bool.not_false, Bool.not_true, Bool.and_self,
      if_true, if_false, reduceIte] <;>
    first
      | exact h
      | exact pollSetup_wf _ _ h

/-- C8: Utils.calculateDistance is the haversine formula with Earth radius
6371000 m, pure and deterministic (it is a function of its four arguments
alone); the distance from any point to itself is 0, and the function is
symmetric in its two points. -/
theorem c8_distance_zero_and_symm :
    (∀ lat lng : ℝ, Utils.calculateDistance lat lng lat lng = 0) ∧
    (∀ aLat aLng bLat bLng : ℝ,
      Utils.calculateDistance aLat aLng bLat bLng =
        Utils.calculateDistance bLat bLng aLat aLng) := by
  constructor
  · intro lat lng
    simp [Utils.calculateDistance]
  · intro a b c d
    simp only [Utils.calculateDistance]
    congr 1
    congr 1
    congr 1
    congr 1
    have h1 : (a - c) * Real.pi / 180 / 2 = -((c - a) * Real.pi / 180 / 2) := by ring
    have h2 : (b - d) * Real.pi / 180 / 2 = -((d - b) * Real.pi / 180 / 2) := by ring
    simp only [h1, h2, Real.sin_neg]
    ring

/-- C10: releasing the wake lock is idempotent: after any call the handle is
null; a release of an already-released or never-acquired hold changes
nothing and makes no platform release call (the Bool component), and the JS
body (try with catch-all and finally) lets no exception escape. -/
theorem c10_release_idempotent (s : AppState) :
    (releaseWakeLock s).1.wakeLock = false ∧
    releaseWakeLock (releaseWakeLock s).1 = ((releaseWakeLock s).1, false) ∧
    releaseWakeLock { s with wakeLock := false } = ({ s with wakeLock := false }, false) := by
  rcases s with ⟨a1, a2, a3, a4, a5, a6, a7, a8, a9, a10, a11, a12, a13, a14, a15⟩
  cases a15 <;> simp [releaseWakeLock]

/-- C1: from any session state with the arrived flag clear, an arbitrary
sequence of delivered fixes performs the arrival work at most once, and any
delivery that performs the arrival work leaves the arrived flag set (it is
set synchronously before the notification send), so every later in-radius
fix finds arrived true and cannot re-trigger arrival. -/
theorem c1_arrival_at_most_once (env : Env) (x : AppState × Platform)
    (evs : List FixEvent) (e : FixEvent) (h : x.1.arrived = false) :
    TrackingService.countArrivals env x evs ≤ 1 ∧
    ((TrackingService.deliverFix env x.1 x.2 e).2.2.arrivalWork = true →
      (TrackingService.deliverFix env x.1 x.2 e).1.arrived = true) := by
  refine ⟨countArrivals_le_one env evs x h, ?_⟩
  intro hw
  rcases deliverFix_arrival_spec env x.1 x.2 e with ⟨_, _, hset⟩ | ⟨hfalse, _⟩
  · exact hset
  · rw [hw] at hfalse; cases hfalse

/-- C1 witness: two consecutive in-radius fixes on a live session trigger
the arrival work at most once. -/
theorem c1_witness :
    (sBase, pBase).1.arrived = false ∧
    (TrackingService.countArrivals envFull (sBase, pBase)
        [⟨⟨0, 0, 5⟩, 10, true⟩, ⟨⟨0, 0, 5⟩, 20, true⟩] ≤ 1 ∧
      ((TrackingService.deliverFix envFull sBase pBase ⟨⟨0, 0, 5⟩, 10, true⟩).2.2.arrivalWork = true →
        (TrackingService.deliverFix envFull sBase pBase ⟨⟨0, 0, 5⟩, 10, true⟩).1.arrived = true)) :=
  ⟨rfl, c1_arrival_at_most_once envFull (sBase, pBase)
    [⟨⟨0, 0, 5⟩, 10, true⟩, ⟨⟨0, 0, 5⟩, 20, true⟩] ⟨⟨0, 0, 5⟩, 10, true⟩ rfl⟩

/-- C6: when the arrival handler runs on a not-yet-arrived session, the
session ends arrived with tracking stopped and the complete transition done,
for a failed notification send exactly as for a successful one; a failed
send additionally surfaces only a warning, and never unwinds the state. -/
theorem c6_failed_send_keeps_arrived (env : Env) (s : AppState) (p : Platform)
    (sendOk : Bool) (h : s.arrived = false) :
    (TrackingService.handleArrival env s p sendOk).1.arrived = true ∧
    (TrackingService.handleArrival env s p sendOk).1.tracking = false ∧
    (TrackingService.handleArrival env s p sendOk).1.currentStep = "complete" ∧
    (TrackingService.handleArrival env s p sendOk).2.2.performedWork = true ∧
    (sendOk = false → (TrackingService.handleArrival env s p sendOk).2.2.warn = true) := by
  have ha := handleArrival_state env s p sendOk h
  refine ⟨ha.1, ha.2.1, ha.2.2.1, ha.2.2.2.2.1, ?_⟩
  intro hs
  rw [ha.2.2.2.2.2, hs]
  rfl

/-- C6 witness: a failed arrival send on a live session still leaves the
session arrived, stopped, completed, with only a warning. -/
theorem c6_witness :
    sBase.arrived = false ∧
    ((TrackingService.handleArrival envFull sBase pBase false).1.arrived = true ∧
      (TrackingService.handleArrival envFull sBase pBase false).1.tracking = false ∧
      (TrackingService.handleArrival envFull sBase pBase false).1.currentStep = "complete" ∧
      (TrackingService.handleArrival envFull sBase pBase false).2.2.performedWork = true ∧
      (false = false → (TrackingService.handleArrival envFull sBase pBase false).2.2.warn = true)) :=
  ⟨rfl, c6_failed_send_keeps_arrived envFull sBase pBase false rfl⟩

/-- C9: the geofence arrival test is boundary inclusive: on an active
not-yet-arrived session with radius 500, a fix whose computed distance is
exactly 500 performs the arrival work (the comparison in the tracking
callback is less-or-equal). -/
theorem c9_boundary_inclusive (env : Env) (s : AppState) (p : Platform) (e : FixEvent)
    (hdest : s.destination.isSome = true) (harr : s.arrived = false)
    (hcb : s.lastTrackingCallback = true) (hrad : s.geofenceRadius = 500)
    (hdist : e.dist = 500) :
    (TrackingService.deliverFix env s p e).2.2.arrivalWork = true := by
  unfold TrackingService.deliverFix
  rcases hd : s.destination with _ | d
  · rw [hd] at hdest; simp at hdest
  · have hcond : e.dist ≤ s.geofenceRadius ∧ s.arrived = false := by
      rw [hdist, hrad]; exact ⟨le_refl _, harr⟩
    have ha := handleArrival_state env
      { s with
        currentLocation := some e.loc, updateCount := s.updateCount + 1,
        distance := some e.dist } p e.sendOk harr
    rw [hd, hcb] at ha
    simp only [hcb, hd]
    rw [if_pos hcond]
    simp only [if_true]
    exact ha.2.2.2.2.1

/-- C9 witness: a fix at exactly the 500 m boundary triggers arrival on the
live base session. -/
theorem c9_witness :
    sBase.destination.isSome = true ∧ sBase.arrived = false ∧
    sBase.lastTrackingCallback = true ∧ sBase.geofenceRadius = 500 ∧
    (TrackingService.deliverFix envFull sBase pBase ⟨⟨0, 0, 1⟩, 500, true⟩).2.2.arrivalWork = true :=
  ⟨rfl, rfl, rfl, rfl,
    c9_boundary_inclusive envFull sBase pBase ⟨⟨0, 0, 1⟩, 500, true⟩ rfl rfl rfl rfl rfl⟩

theorem deliverFix_none_dest (env : Env) (s : AppState) (p : Platform) (e : FixEvent)
    (h : s.destination = none) :
    (TrackingService.deliverFix env s p e).2.2.arrivalWork = false := by
  unfold TrackingService.deliverFix
  cases hcb : s.lastTrackingCallback <;> simp [hcb, h]

/-- C2 counterexample: on a session that has already arrived (phase not
Active any more), a delivered fix is not ignored: updateCount changes,
currentLocation is overwritten, and the tracking callback is invoked. -/
theorem c2_counterexample :
    (TrackingService.deliverFix envFull
        { sBase with arrived := true, tracking := false, updateCount := 3 } pBase
        ⟨⟨0, 0, 5⟩, 10, true⟩).1.updateCount = 4 ∧
    (TrackingService.deliverFix envFull
        { sBase with arrived := true, tracking := false, updateCount := 3 } pBase
        ⟨⟨0, 0, 5⟩, 10, true⟩).2.2.callbackInvoked = true ∧
    (TrackingService.deliverFix envFull
        { sBase with arrived := true, tracking := false, updateCount := 3 } pBase
        ⟨⟨0, 0, 5⟩, 10, true⟩).1.currentLocation ≠
      ({ sBase with arrived := true, tracking := false, updateCount := 3 } : AppState).currentLocation := by
  decide

/-- C2 (amended): a fix delivered when the session is not Active (after the
arrival transition, or after cancel when the destination has been cleared)
is still applied: currentLocation is overwritten, updateCount is
incremented, and the stored tracking callback is invoked when registered;
only the arrival work itself cannot be (re-)triggered in these states. -/
theorem c2_late_fix_applied (env : Env) (s : AppState) (p : Platform) (e : FixEvent)
    (h : s.arrived = true ∨ s.destination = none) :
    (TrackingService.deliverFix env s p e).1.updateCount = s.updateCount + 1 ∧
    (TrackingService.deliverFix env s p e).1.currentLocation = some e.loc ∧
    (TrackingService.deliverFix env s p e).2.2.callbackInvoked = s.lastTrackingCallback ∧
    (TrackingService.deliverFix env s p e).2.2.arrivalWork = false := by
  have hap := deliverFix_applied env s p e
  refine ⟨hap.1, hap.2.1, hap.2.2, ?_⟩
  rcases h with h1 | h1
  · rcases deliverFix_arrival_spec env s p e with ⟨_, hfalse, _⟩ | ⟨hw, _⟩
    · rw [h1] at hfalse; cases hfalse
    · exact hw
  · exact deliverFix_none_dest env s p e h1

/-- C2 witness: the amended statement evaluated on the arrived session. -/
theorem c2_witness :
    (({ sBase with arrived := true, tracking := false } : AppState).arrived = true ∨
      ({ sBase with arrived := true, tracking := false } : AppState).destination = none) ∧
    ((TrackingService.deliverFix envFull
        { sBase with arrived := true, tracking := false } pBase
        ⟨⟨1, 2, 5⟩, 600, true⟩).1.updateCount =
      ({ sBase with arrived := true, tracking := false } : AppState).updateCount + 1 ∧
    (TrackingService.deliverFix envFull
        { sBase with arrived := true, tracking := false } pBase
        ⟨⟨1, 2, 5⟩, 600, true⟩).1.currentLocation = some ⟨1, 2, 5⟩ ∧
    (TrackingService.deliverFix envFull
        { sBase with arrived := true, tracking := false } pBase
        ⟨⟨1, 2, 5⟩, 600, true⟩).2.2.callbackInvoked =
      ({ sBase with arrived := true, tracking := false } : AppState).lastTrackingCallback ∧
    (TrackingService.deliverFix envFull
        { sBase with arrived := true, tracking := false } pBase
        ⟨⟨1, 2, 5⟩, 600, true⟩).2.2.arrivalWork = false) :=
  ⟨Or.inl rfl, c2_late_fix_applied envFull
    { sBase with arrived := true, tracking := false } pBase
    ⟨⟨1, 2, 5⟩, 600, true⟩ (Or.inl rfl)⟩

/-- C3 counterexample: in the browser (non-Capacitor) path, tracking starts
the foreground watch but no 15 second poll timer at all, refuting the claim
that the poll is started unconditionally whenever tracking is active,
including the browser path. -/
theorem c3_counterexample :
    ({ envFull with isCapacitor := false } : Env).isCapacitor = false ∧
    sBase.tracking = true ∧
    (LocationService.startTracking { envFull with isCapacitor := false }
        sBase pBase).2.2.fgWatchStarted = true ∧
    (LocationService.startTracking { envFull with isCapacitor := false }
        sBase pBase).2.2.pollStarted = false ∧
    (LocationService.startTracking { envFull with isCapacitor := false }
        sBase pBase).2.1.pollTimers = [] ∧
    (LocationService.startTracking { envFull with isCapacitor := false }
        sBase pBase).1.pollIntervalId = none := by
  decide

/-- C3 (amended): in the Capacitor path the strategies are attempted in the
fixed order background service first, then the foreground watch when the
background service is unavailable or its setup throws, and the 15 second
poll is started in the Capacitor path whenever strategy setup does not fail
outright; but the poll is not unconditional: a throwing foreground-watch
fallback returns early without starting it, and the browser path never
starts a poll timer. -/
theorem c3_strategy_order (env : Env) (s : AppState) (p : Platform) :
    (env.isCapacitor = true → env.capGeoAvailable = true → env.bgGeoAvailable = true →
      env.bgSetupFails = false →
      (LocationService.startTracking env s p).2.2.bgStarted = true ∧
      (LocationService.startTracking env s p).2.2.fgWatchStarted = false ∧
      (LocationService.startTracking env s p).2.2.pollStarted = true) ∧
    (env.isCapacitor = true → env.capGeoAvailable = true →
      (env.bgGeoAvailable = false ∨ env.bgSetupFails = true) →
      env.watchPositionFails = false →
      (LocationService.startTracking env s p).2.2.bgStarted = false ∧
      (LocationService.startTracking env s p).2.2.fgWatchStarted = true ∧
      (LocationService.startTracking env s p).2.2.pollStarted = true) ∧
    (env.isCapacitor = true → env.capGeoAvailable = true →
      (env.bgGeoAvailable = false ∨ env.bgSetupFails = true) →
      env.watchPositionFails = true →
      (LocationService.startTracking env s p).2.2.pollStarted = false ∧
      (LocationService.startTracking env s p).2.2.errorShown = true) ∧
    ((env.isCapacitor && env.capGeoAvailable) = false →
      env.browserGeoAvailable = true →
      (LocationService.startTracking env s p).2.2.fgWatchStarted = true ∧
      (LocationService.startTracking env s p).2.2.pollStarted = false) := by
  refine ⟨?_, ?_, ?_, ?_⟩
  · intro h1 h2 h3 h4
    simp [LocationService.startTracking, LocationService.startCapacitorTracking,
      LocationService.setupBackgroundTracking, h1, h2, h3, h4]
  · intro h1 h2 h3 h4
    rcases h3 with h3 | h3 <;>
      simp [LocationService.startTracking, LocationService.startCapacitorTracking,
        LocationService.setupBackgroundTracking, h1, h2, h3, h4]
  · intro h1 h2 h3 h4
    rcases h3 with h3 | h3 <;>
      simp [LocationService.startTracking, LocationService.startCapacitorTracking,
        LocationService.setupBackgroundTracking, h1, h2, h3, h4]
  · intro h1 h2
    simp [LocationService.startTracking, h1, h2]

/-- C3 witness: the background-service branch of the amended statement,
evaluated in the fully capable native environment. -/
theorem c3_witness :
    envFull.isCapacitor = true ∧ envFull.capGeoAvailable = true ∧
    envFull.bgGeoAvailable = true ∧ envFull.bgSetupFails = false ∧
    ((LocationService.startTracking envFull sBase pBase).2.2.bgStarted = true ∧
      (LocationService.startTracking envFull sBase pBase).2.2.fgWatchStarted = false ∧
      (LocationService.startTracking envFull sBase pBase).2.2.pollStarted = true) :=
  ⟨rfl, rfl, rfl, rfl, (c3_strategy_order envFull sBase pBase).1 rfl rfl rfl rfl⟩

/-- C5 counterexample: a successful start does not reset lastFix: with a
previous currentLocation present, the session becomes Active with the old
location kept, refuting the resets-lastFix-to-null part of the claim. -/
theorem c5_counterexample :
    (TrackingService.startTracking envFull
        { sBase with currentLocation := some ⟨1, 2, 3⟩, tracking := false }
        pBase true).2.2.started = true ∧
    (TrackingService.startTracking envFull
        { sBase with currentLocation := some ⟨1, 2, 3⟩, tracking := false }
        pBase true).1.currentLocation ≠ none := by
  decide

/-- C5 (amended): start fails with a validation error, leaving the state
unchanged, when the destination is missing or the contact set is empty; on
success it sets the session Active and resets updateCount to 0, but it does
not reset lastFix: currentLocation keeps its previous value. -/
theorem c5_start_validation (env : Env) (s : AppState) (p : Platform) (serverOk : Bool) :
    (s.destination = none ∨ s.selectedContacts = [] →
      TrackingService.startTracking env s p serverOk = (s, p, ⟨true, false⟩)) ∧
    (s.destination.isSome = true → s.selectedContacts ≠ [] →
      (TrackingService.startTracking env s p true).1.tracking = true ∧
      (TrackingService.startTracking env s p true).1.updateCount = 0 ∧
      (TrackingService.startTracking env s p true).1.currentLocation = s.currentLocation ∧
      (TrackingService.startTracking env s p true).2.2.started = true) := by
  constructor
  · intro h
    rcases h with h | h
    · simp [TrackingService.startTracking, h]
    · cases hd : s.destination <;>
        simp [TrackingService.startTracking, hd, h]
  · intro h1 h2
    rcases hd : s.destination with _ | d
    · rw [hd] at h1; simp at h1
    · rcases hc : s.selectedContacts with _ | ⟨a, l⟩
      · exact absurd hc h2
      · have hls := lsStart_preserves env
          { s with tracking := true, currentStep := "tracking", updateCount := 0 } p
        have hwp := requestWakeLock_preserves env
          (LocationService.startTracking env
            { s with tracking := true, currentStep := "tracking", updateCount := 0 } p).1
        simp [TrackingService.startTracking, hd, hc]
        simp_all

/-- C5 witness: the success branch of the amended statement on a session
with a stored previous location. -/
theorem c5_witness :
    ({ sBase with currentLocation := some ⟨7, 8, 9⟩ } : AppState).destination.isSome = true ∧
    ({ sBase with currentLocation := some ⟨7, 8, 9⟩ } : AppState).selectedContacts ≠ [] ∧
    ((TrackingService.startTracking envFull
        { sBase with currentLocation := some ⟨7, 8, 9⟩ } pBase true).1.tracking = true ∧
      (TrackingService.startTracking envFull
        { sBase with currentLocation := some ⟨7, 8, 9⟩ } pBase true).1.updateCount = 0 ∧
      (TrackingService.startTracking envFull
        { sBase with currentLocation := some ⟨7, 8, 9⟩ } pBase true).1.currentLocation =
        ({ sBase with currentLocation := some ⟨7, 8, 9⟩ } : AppState).currentLocation ∧
      (TrackingService.startTracking envFull
        { sBase with currentLocation := some ⟨7, 8, 9⟩ } pBase true).2.2.started = true) :=
  ⟨rfl, by decide,
    (c5_start_validation envFull { sBase with currentLocation := some ⟨7, 8, 9⟩ }
      pBase true).2 rfl (by decide)⟩

/-- C4 counterexample: when the platform removeWatcher call throws during
stopTracking, the teardown is partial: the poll timer and watchId are
cleared, but backgroundTrackingActive stays true and the background watcher
stays registered, refuting unconditional total teardown. -/
theorem c4_counterexample :
    ((releaseWakeLock (LocationService.stopTracking
        { envFull with removeWatcherFails := true }
        sLoaded
        pLoaded).1).1).backgroundTrackingActive = true ∧
    (LocationService.stopTracking
        { envFull with removeWatcherFails := true }
        sLoaded
        pLoaded).2.bgWatchers = [5] ∧
    ((releaseWakeLock (LocationService.stopTracking
        { envFull with removeWatcherFails := true }
        sLoaded
        pLoaded).1).1).pollIntervalId = none := by
  decide

/-- C4 (amended): teardown is total when the platform calls succeed: on a
native session holding a poll timer, a Capacitor watch, a background watcher
and the wake lock, stopTracking followed by the wake-lock release clears
every state handle and every platform registration; when removeWatcher
throws, only the background watcher flags survive (see the counterexample),
while the poll timer, watchId and wake lock are cleared unconditionally. -/
theorem c4_teardown_total (env : Env) (s : AppState) (p : Platform) (w t b : Nat)
    (h1 : env.isCapacitor = true) (h2 : env.capGeoAvailable = true)
    (h3 : env.bgGeoAvailable = true) (h4 : env.clearWatchFails = false)
    (h5 : env.removeWatcherFails = false)
    (hw : s.watchId = some w) (ht : s.pollIntervalId = some t)
    (hb : s.backgroundWatcherId = some b) (ha : s.backgroundTrackingActive = true)
    (pw : p.capWatches = [w]) (pt : p.pollTimers = [t]) (pb : p.bgWatchers = [b])
    (pbw : p.browserWatches = []) :
    ((releaseWakeLock (LocationService.stopTracking env s p).1).1).pollIntervalId = none ∧
    ((releaseWakeLock (LocationService.stopTracking env s p).1).1).watchId = none ∧
    ((releaseWakeLock (LocationService.stopTracking env s p).1).1).backgroundTrackingActive = false ∧
    ((releaseWakeLock (LocationService.stopTracking env s p).1).1).backgroundWatcherId = none ∧
    ((releaseWakeLock (LocationService.stopTracking env s p).1).1).wakeLock = false ∧
    (LocationService.stopTracking env s p).2.pollTimers = [] ∧
    (LocationService.stopTracking env s p).2.capWatches = [] ∧
    (LocationService.stopTracking env s p).2.bgWatchers = [] ∧
    (LocationService.stopTracking env s p).2.browserWatches = [] := by
  cases hbr : env.browserGeoAvailable <;> cases hwl : s.wakeLock <;>
    simp [LocationService.stopTracking, LocationService.stopPoll,
      LocationService.stopCapWatch, LocationService.stopBg,
      LocationService.stopBrowserWatch, releaseWakeLock, removeId,
      h1, h2, h3, h4, h5, hw, ht, hb, ha, pw, pt, pb, pbw, hbr, hwl]

/-- C4 witness: the amended statement evaluated on the fully loaded native
session, all platform calls succeeding. -/
theorem c4_witness :
    envFull.isCapacitor = true ∧ envFull.removeWatcherFails = false ∧
    (((releaseWakeLock (LocationService.stopTracking envFull
        sLoaded
        pLoaded).1).1).pollIntervalId = none ∧
      ((releaseWakeLock (LocationService.stopTracking envFull
        sLoaded
        pLoaded).1).1).watchId = none ∧
      ((releaseWakeLock (LocationService.stopTracking envFull
        sLoaded
        pLoaded).1).1).backgroundTrackingActive = false ∧
      ((releaseWakeLock (LocationService.stopTracking envFull
        sLoaded
        pLoaded).1).1).backgroundWatcherId = none ∧
      ((releaseWakeLock (LocationService.stopTracking envFull
        sLoaded
        pLoaded).1).1).wakeLock = false ∧
      (LocationService.stopTracking envFull
        sLoaded
        pLoaded).2.pollTimers = [] ∧
      (LocationService.stopTracking envFull
        sLoaded
        pLoaded).2.capWatches = [] ∧
      (LocationService.stopTracking envFull
        sLoaded
        pLoaded).2.bgWatchers = [] ∧
      (LocationService.stopTracking envFull
        sLoaded
        pLoaded).2.browserWatches = []) :=
  ⟨rfl, rfl, c4_teardown_total envFull
    sLoaded
    pLoaded
    3 7 5 rfl rfl rfl rfl rfl rfl rfl rfl rfl rfl rfl rfl rfl⟩

/-- C7 counterexample: re-invoking the tracking start path (as the
appStateChange listener does on every foregrounding while tracking) without
an intervening stop registers a second Capacitor watch with the platform
while the first stays live: two live watch subscriptions at once. -/
theorem c7_counterexample :
    (LocationService.startTracking { envFull with bgGeoAvailable := false }
        ((LocationService.startTracking { envFull with bgGeoAvailable := false }
          sBase pBase).1)
        ((LocationService.startTracking { envFull with bgGeoAvailable := false }
          sBase pBase).2.1)).2.1.capWatches = [0, 2] := by
  decide

theorem lsStart_wakeLock (env : Env) (s : AppState) (p : Platform) :
    (LocationService.startTracking env s p).1.wakeLock = s.wakeLock := by
  rcases env with ⟨e1, e2, e3, e4, e5, e6, e7, e8, e9⟩
  cases e1 <;> cases e2 <;> cases e3 <;> cases e4 <;> cases e5 <;> cases e6 <;>
    cases hpi : s.pollIntervalId <;>
    simp [LocationService.startTracking, LocationService.startCapacitorTracking,
      LocationService.setupBackgroundTracking, LocationService.pollSetup, hpi]

/-- C7 (amended): the at-most-one invariant holds for the poll timer and for
the power hold across a re-invocation of the tracking start path: the start
path clears the stored interval before registering a new one, so from a
state whose stored interval id matches the live platform timers any start
invocation preserves that property and leaves at most one live poll timer;
and LocationService.startTracking never requests a wake lock (only the
trip-level TrackingService.startTracking does), so the re-entry invoked by
the appStateChange listener leaves the existing single hold untouched. The
analogous at-most-one property fails for watch subscriptions (see the
counterexample). -/
theorem c7_single_poll_timer (env : Env) (s : AppState) (p : Platform)
    (h : PollWF s p) :
    PollWF (LocationService.startTracking env s p).1
      (LocationService.startTracking env s p).2.1 ∧
    (LocationService.startTracking env s p).2.1.pollTimers.length ≤ 1 ∧
    (LocationService.startTracking env s p).1.wakeLock = s.wakeLock := by
  have hwf := lsStart_pollwf env s p h
  have hwf2 : (LocationService.startTracking env s p).2.1.pollTimers =
      pollList (LocationService.startTracking env s p).1.pollIntervalId := hwf
  refine ⟨hwf, ?_, lsStart_wakeLock env s p⟩
  rw [hwf2]
  exact pollList_length _

/-- C7 witness: the poll and power-hold invariants evaluated across one
re-invocation of the start path on the base session, which holds the wake
lock. -/
theorem c7_witness :
    PollWF sBase pBase ∧
    (PollWF (LocationService.startTracking envFull sBase pBase).1
        (LocationService.startTracking envFull sBase pBase).2.1 ∧
      (LocationService.startTracking envFull sBase pBase).2.1.pollTimers.length ≤ 1 ∧
      (LocationService.startTracking envFull sBase pBase).1.wakeLock = sBase.wakeLock) :=
  ⟨by decide, c7_single_poll_timer envFull sBase pBase (by decide)⟩
